import Mathlib

/-!
Shallow embedding of the StudentSearch client search pipeline.

The repository contains three variants of the `handleSearch` submit handler:
two token-gated variants in `src/app/page.tsx` (the second revision follows
the document separator) and one ungated variant in `src/unnamed/part_000`.
Each handler owns the component state (`query`, `results`, `loading`,
`error`, `hasSearched`, and in the gated variants `token`) and drives one
fetch / status-check / XML-parse cycle.

The handlers are modelled as pure functions from a pre-state and the outcome
the single fetch would have (a response with status, status text and body,
or a thrown error) to the post-state together with the list of HTTP requests
the handler issued.  The XML document is abstracted to the list of
`employee` elements that `getElementsByTagName("employee")` returns, each
element carrying the optional text content of its `firstName` / `rollno` /
`Home_town` descendants (`none` models a missing child).
-/

/-- One parsed result record (`interface Student` in the source). -/
structure Student where
  name : String
  roll : String
  hometown : String
deriving Repr, DecidableEq

/-- Component state of the token-gated variants of `StudentSearch`. -/
structure GatedState where
  query : String
  results : List Student
  loading : Bool
  error : String
  hasSearched : Bool
  token : Option String
deriving Repr, DecidableEq

/-- Component state of the ungated variant (`src/unnamed/part_000`), which
holds no verification token. -/
structure UngatedState where
  query : String
  results : List Student
  loading : Bool
  error : String
  hasSearched : Bool
deriving Repr, DecidableEq

/-- An `employee` element of the response XML: the optional text content of
its `firstName`, `rollno` and `Home_town` descendants.  `none` models a
missing child element. -/
structure EmployeeElem where
  firstName : Option String
  rollno : Option String
  Home_town : Option String
deriving Repr, DecidableEq

/-- The body phase of a response: either `res.text()` resolves and the XML
parse yields a list of `employee` elements, or reading the body throws
(`some m` an `Error` with message `m`, `none` a non-`Error` value). -/
inductive BodyOutcome where
  | text (employees : List EmployeeElem)
  | textError (msg : Option String)
deriving Repr, DecidableEq

/-- The outcome the environment supplies for the single fetch: a settled
HTTP response (status, status text, body phase) or a rejection of `fetch`
itself (`some m` an `Error` with message `m`, `none` a non-`Error` value). -/
inductive FetchOutcome where
  | response (status : Nat) (statusText : String) (body : BodyOutcome)
  | fetchError (msg : Option String)
deriving Repr, DecidableEq

/-- An HTTP GET request issued by a handler: its URL and the value of the
`x-turnstile-token` header when one is attached. -/
structure Request where
  url : String
  xTurnstileToken : Option String
deriving Repr, DecidableEq

/-- The fixed remote endpoint (`WORKER_URL` in the source). -/
def WORKER_URL : String := "https://studentsearch-oa.ketan-saini62.workers.dev"

/-- The JavaScript `WhiteSpace`/`LineTerminator` set that
`String.prototype.trim` strips: tab, line feed, vertical tab, form feed,
carriage return, space, no-break space, ogham space mark, the en-quad..hair
space range, line and paragraph separators, narrow no-break space, medium
mathematical space, ideographic space, and the byte order mark. -/
def isJsWhitespace (c : Char) : Bool :=
  c = Char.ofNat 9 || c = Char.ofNat 10 || c = Char.ofNat 11 || c = Char.ofNat 12 ||
  c = Char.ofNat 13 || c = Char.ofNat 32 || c = Char.ofNat 160 || c = Char.ofNat 5760 ||
  (Char.ofNat 8192 ≤ c && c ≤ Char.ofNat 8202) || c = Char.ofNat 8232 ||
  c = Char.ofNat 8233 || c = Char.ofNat 8239 || c = Char.ofNat 8287 ||
  c = Char.ofNat 12288 || c = Char.ofNat 65279

/-- JavaScript `String.prototype.trim`: strip leading and trailing
whitespace. -/
def jsTrim (s : String) : String :=
  String.mk (((s.data.dropWhile isJsWhitespace).reverse.dropWhile isJsWhitespace).reverse)

/-- Characters that JavaScript `encodeURIComponent` leaves unescaped:
ASCII alphanumerics and `-_.!~*'()`. -/
def isUnreservedChar (c : Char) : Bool :=
  (Char.ofNat 65 ≤ c && c ≤ Char.ofNat 90) ||
  (Char.ofNat 97 ≤ c && c ≤ Char.ofNat 122) ||
  (Char.ofNat 48 ≤ c && c ≤ Char.ofNat 57) ||
  c = Char.ofNat 45 || c = Char.ofNat 95 || c = Char.ofNat 46 ||
  c = Char.ofNat 33 || c = Char.ofNat 126 || c = Char.ofNat 42 ||
  c = Char.ofNat 39 || c = Char.ofNat 40 || c = Char.ofNat 41

/-- Uppercase hexadecimal digit for `n < 16`. -/
def hexDigitChar (n : Nat) : Char :=
  if n < 10 then Char.ofNat (48 + n) else Char.ofNat (55 + n)

/-- The UTF-8 encoding of one Unicode scalar value, as byte values. -/
def utf8Bytes (c : Char) : List Nat :=
  let n := c.toNat
  if n < 128 then [n]
  else if n < 2048 then [192 + n / 64, 128 + n % 64]
  else if n < 65536 then [224 + n / 4096, 128 + n / 64 % 64, 128 + n % 64]
  else [240 + n / 262144, 128 + n / 4096 % 64, 128 + n / 64 % 64, 128 + n % 64]

/-- Percent-escape of one byte, `%XX` with uppercase hex digits. -/
def percentEncodeByte (b : Nat) : String :=
  String.mk [Char.ofNat 37, hexDigitChar (b / 16), hexDigitChar (b % 16)]

/-- `encodeURIComponent` on one character. -/
def encodeURIComponentChar (c : Char) : String :=
  if isUnreservedChar c then String.singleton c
  else String.join ((utf8Bytes c).map percentEncodeByte)

/-- JavaScript `encodeURIComponent`: unreserved characters pass through,
every other character is replaced by the percent-escapes of its UTF-8
bytes. -/
def encodeURIComponent (s : String) : String :=
  String.join (s.data.map encodeURIComponentChar)

/-- `res.ok` of the Fetch API: status in the range 200..299. -/
def resOk (status : Nat) : Bool :=
  200 ≤ status && status < 300

/-- The catch block shared by all three handlers: an `Error`'s message is
used as is, any non-`Error` thrown value yields the generic message. -/
def catchMessage (msg : Option String) : String :=
  match msg with
  | some m => m
  | none => "Something went wrong."

/-- `x?.textContent || placeholder`: a missing child or an empty text
content yields the placeholder. -/
def textOr (t : Option String) (placeholder : String) : String :=
  match t with
  | none => placeholder
  | some s => if s = "" then placeholder else s

/-- The per-element mapping of the parse step: each field defaults
independently. -/
def parseEmployee (emp : EmployeeElem) : Student :=
  { name := textOr emp.firstName "Unknown"
    roll := textOr emp.rollno "N/A"
    hometown := textOr emp.Home_town "N/A" }

/-- `Array.from(employees).map(...)` of the source: document order is
preserved. -/
def parseEmployees (employees : List EmployeeElem) : List Student :=
  employees.map parseEmployee

/-- `handleSearch` of the first token-gated variant (`src/app/page.tsx`,
first revision).  Empty trimmed query: no-op.  No token: fixed gate
message, no request.  Otherwise one GET with the token header; 401/403
clears the token and throws a fixed security error; other non-ok statuses
throw a message carrying the status code and status text; an ok response
is read and parsed into `results`; the catch block maps a thrown value to
`error`; the finally block clears `loading`. -/
def handleSearchGated (s : GatedState) (env : FetchOutcome) :
    GatedState × List Request :=
  if jsTrim s.query = "" then (s, [])
  else
    match s.token with
    | none => ({ s with error := "Please verify you are human first." }, [])
    | some token =>
      let s1 : GatedState :=
        { s with loading := true, error := "", results := [], hasSearched := true }
      let req : Request :=
        { url := WORKER_URL ++ "?id=" ++ encodeURIComponent s.query
          xTurnstileToken := some token }
      let s2 : GatedState :=
        match env with
        | .fetchError msg => { s1 with error := catchMessage msg }
        | .response status statusText body =>
          if status = 401 ∨ status = 403 then
            { s1 with token := none,
                      error := (catchMessage
                        (some "Security check failed. Please try again.")) }
          else if ¬ resOk status then
            { s1 with error := (catchMessage
                (some ("Connection failed: " ++ toString status ++ " "
                  ++ statusText))) }
          else
            match body with
            | .textError msg => { s1 with error := catchMessage msg }
            | .text employees => { s1 with results := parseEmployees employees }
      ({ s2 with loading := false }, [req])

/-- `handleSearch` of the second token-gated variant (`src/app/page.tsx`,
second revision).  Same shape as the first, with its own gate and security
messages; its non-ok branch throws a fixed message that does not carry the
status code. -/
def handleSearchGatedV2 (s : GatedState) (env : FetchOutcome) :
    GatedState × List Request :=
  if jsTrim s.query = "" then (s, [])
  else
    match s.token with
    | none => ({ s with error := "Verifying security... please wait a moment." }, [])
    | some token =>
      let s1 : GatedState :=
        { s with loading := true, error := "", results := [], hasSearched := true }
      let req : Request :=
        { url := WORKER_URL ++ "?id=" ++ encodeURIComponent s.query
          xTurnstileToken := some token }
      let s2 : GatedState :=
        match env with
        | .fetchError msg => { s1 with error := catchMessage msg }
        | .response status _statusText body =>
          if status = 403 ∨ status = 401 then
            { s1 with token := none,
                      error := (catchMessage
                        (some "Security check failed or token expired. Please retry.")) }
          else if ¬ resOk status then
            { s1 with error := (catchMessage
                (some "Failed to connect to search service")) }
          else
            match body with
            | .textError msg => { s1 with error := catchMessage msg }
            | .text employees => { s1 with results := parseEmployees employees }
      ({ s2 with loading := false }, [req])

/-- `handleSearch` of the ungated variant (`src/unnamed/part_000`).  No
token state and no 401/403 special case: every non-ok status throws the
message carrying the status code and status text. -/
def handleSearchUngated (s : UngatedState) (env : FetchOutcome) :
    UngatedState × List Request :=
  if jsTrim s.query = "" then (s, [])
  else
    let s1 : UngatedState :=
      { s with loading := true, error := "", results := [], hasSearched := true }
    let req : Request :=
      { url := WORKER_URL ++ "?id=" ++ encodeURIComponent s.query
        xTurnstileToken := none }
    let s2 : UngatedState :=
      match env with
      | .fetchError msg => { s1 with error := catchMessage msg }
      | .response status statusText body =>
        if ¬ resOk status then
          { s1 with error := (catchMessage
              (some ("Connection failed: " ++ toString status ++ " "
                ++ statusText))) }
        else
          match body with
          | .textError msg => { s1 with error := catchMessage msg }
          | .text employees => { s1 with results := parseEmployees employees }
    ({ s2 with loading := false }, [req])

/-! Sample states used by the witnesses and counterexamples. -/

/-- A verified state with a non-blank query, used as a concrete input. -/
def sampleGated : GatedState :=
  { query := "210123", results := [], loading := false, error := ""
    hasSearched := false, token := some "tok" }

/-- An ungated state with a non-blank query, used as a concrete input. -/
def sampleUngated : UngatedState :=
  { query := "210123", results := [], loading := false, error := ""
    hasSearched := false }

/-- A state holding no token but a non-blank query. -/
def unverifiedGated : GatedState :=
  { query := "abc", results := [], loading := false, error := ""
    hasSearched := false, token := none }

/-- A state holding no token while earlier results are still displayed. -/
def staleResultsState : GatedState :=
  { query := "abc"
    results := [{ name := "ravi", roll := "210123", hometown := "delhi" }]
    loading := false, error := "", hasSearched := true, token := none }

/-- A state whose query is whitespace only. -/
def blankGated : GatedState :=
  { query := " ", results := [], loading := false, error := ""
    hasSearched := false, token := some "tok" }

/-- An ungated state whose query is whitespace only. -/
def blankUngated : UngatedState :=
  { query := " ", results := [], loading := false, error := ""
    hasSearched := false }

/-- C10: a search submission never modifies the entered query text: in all
three handler variants, on every input and every outcome, the post-state
`query` equals the pre-state `query`. -/
theorem C10_query_unchanged (s : GatedState) (u : UngatedState)
    (env : FetchOutcome) :
    (handleSearchGated s env).1.query = s.query ∧
    (handleSearchGatedV2 s env).1.query = s.query ∧
    (handleSearchUngated u env).1.query = u.query := by
  refine ⟨?_, ?_, ?_⟩ <;>
    · simp only [handleSearchGated, handleSearchGatedV2, handleSearchUngated]
      repeat' split
      all_goals rfl

/-- C7: submitting a query that is empty or whitespace only is a no-op in
all three variants: the state is returned unchanged and no request is
issued. -/
theorem C7_blank_noop (s : GatedState) (u : UngatedState) (env : FetchOutcome)
    (hq : jsTrim s.query = "") (hu : jsTrim u.query = "") :
    handleSearchGated s env = (s, []) ∧
    handleSearchGatedV2 s env = (s, []) ∧
    handleSearchUngated u env = (u, []) := by
  refine ⟨?_, ?_, ?_⟩
  · simp only [handleSearchGated]; rw [if_pos hq]
  · simp only [handleSearchGatedV2]; rw [if_pos hq]
  · simp only [handleSearchUngated]; rw [if_pos hu]

/-- C7 witness: a whitespace-only query leaves a concrete state untouched. -/
theorem C7_blank_noop_witness :
    jsTrim blankGated.query = "" ∧ jsTrim blankUngated.query = "" ∧
    handleSearchGated blankGated (.fetchError none) = (blankGated, []) :=
  ⟨by decide, by decide,
    (C7_blank_noop blankGated blankUngated (.fetchError none)
      (by decide) (by decide)).1⟩

/-- C3: whenever a request is started (non-blank query and, in the gated
variants, a held token), `loading` is `false` after the handler settles,
on every environment outcome. -/
theorem C3_loading_false (s : GatedState) (u : UngatedState) (t : String)
    (env : FetchOutcome)
    (hq : jsTrim s.query ≠ "") (ht : s.token = some t)
    (hu : jsTrim u.query ≠ "") :
    (handleSearchGated s env).1.loading = false ∧
    (handleSearchGatedV2 s env).1.loading = false ∧
    (handleSearchUngated u env).1.loading = false := by
  refine ⟨?_, ?_, ?_⟩
  · simp only [handleSearchGated]; rw [if_neg hq, ht]
  · simp only [handleSearchGatedV2]; rw [if_neg hq, ht]
  · simp only [handleSearchUngated]; rw [if_neg hu]

/-- C3 witness: the loading flag is cleared on a concrete settled run. -/
theorem C3_loading_false_witness :
    jsTrim sampleGated.query ≠ "" ∧ sampleGated.token = some "tok" ∧
    jsTrim sampleUngated.query ≠ "" ∧
    (handleSearchGated sampleGated (.response 200 "OK" (.text []))).1.loading
      = false :=
  ⟨by decide, rfl, by decide,
    (C3_loading_false sampleGated sampleUngated "tok"
      (.response 200 "OK" (.text [])) (by decide) rfl (by decide)).1⟩

/-- C4: in the token-gated variants, submitting a non-blank query with no
held token sets the variant's fixed gate message and returns: no request
is issued and `loading` and `results` are unchanged. -/
theorem C4_gate_unmet (s : GatedState) (env : FetchOutcome)
    (hq : jsTrim s.query ≠ "") (ht : s.token = none) :
    handleSearchGated s env
      = ({ s with error := "Please verify you are human first." }, []) ∧
    handleSearchGatedV2 s env
      = ({ s with error := "Verifying security... please wait a moment." }, []) ∧
    (handleSearchGated s env).1.loading = s.loading ∧
    (handleSearchGated s env).1.results = s.results ∧
    (handleSearchGatedV2 s env).1.loading = s.loading ∧
    (handleSearchGatedV2 s env).1.results = s.results := by
  have h1 : handleSearchGated s env
      = ({ s with error := "Please verify you are human first." }, []) := by
    simp only [handleSearchGated]; rw [if_neg hq, ht]
  have h2 : handleSearchGatedV2 s env
      = ({ s with error := "Verifying security... please wait a moment." }, []) := by
    simp only [handleSearchGatedV2]; rw [if_neg hq, ht]
  exact ⟨h1, h2, by rw [h1], by rw [h1], by rw [h2], by rw [h2]⟩

/-- C4 witness: a concrete unverified submission is rejected locally. -/
theorem C4_gate_unmet_witness :
    jsTrim unverifiedGated.query ≠ "" ∧ unverifiedGated.token = none ∧
    handleSearchGated unverifiedGated (.fetchError none)
      = ({ unverifiedGated with
            error := "Please verify you are human first." }, []) :=
  ⟨by decide, rfl,
    (C4_gate_unmet unverifiedGated (.fetchError none) (by decide) rfl).1⟩

/-- C6: whenever a request is started, each variant issues exactly one GET
whose URL carries `id=` followed by the URL-encoded query text; the gated
variants attach the held token as the `x-turnstile-token` header and the
ungated variant sends no such header. -/
theorem C6_one_request (s : GatedState) (u : UngatedState) (t : String)
    (env : FetchOutcome)
    (hq : jsTrim s.query ≠ "") (ht : s.token = some t)
    (hu : jsTrim u.query ≠ "") :
    (handleSearchGated s env).2
      = [{ url := WORKER_URL ++ "?id=" ++ encodeURIComponent s.query
           xTurnstileToken := some t }] ∧
    (handleSearchGatedV2 s env).2
      = [{ url := WORKER_URL ++ "?id=" ++ encodeURIComponent s.query
           xTurnstileToken := some t }] ∧
    (handleSearchUngated u env).2
      = [{ url := WORKER_URL ++ "?id=" ++ encodeURIComponent u.query
           xTurnstileToken := none }] := by
  refine ⟨?_, ?_, ?_⟩
  · simp only [handleSearchGated]; rw [if_neg hq, ht]
  · simp only [handleSearchGatedV2]; rw [if_neg hq, ht]
  · simp only [handleSearchUngated]; rw [if_neg hu]

/-- C6 witness: the single request built for a concrete query. -/
theorem C6_one_request_witness :
    jsTrim sampleGated.query ≠ "" ∧ sampleGated.token = some "tok" ∧
    jsTrim sampleUngated.query ≠ "" ∧
    (handleSearchGated sampleGated (.fetchError none)).2
      = [{ url := WORKER_URL ++ "?id=" ++ encodeURIComponent "210123"
           xTurnstileToken := some "tok" }] :=
  ⟨by decide, rfl, by decide,
    (C6_one_request sampleGated sampleUngated "tok" (.fetchError none)
      (by decide) rfl (by decide)).1⟩

/-- C1 counterexample: the ungated variant does not give 401 responses the
fixed-security-message treatment; its error embeds the status code and
status text, so it varies with the response and is not the fixed security
message. -/
theorem C1_counterexample :
    (handleSearchUngated sampleUngated
        (.response 401 "Unauthorized" (.text []))).1.error
      = "Connection failed: 401 Unauthorized" ∧
    (handleSearchUngated sampleUngated
        (.response 401 "Nope" (.text []))).1.error
      = "Connection failed: 401 Nope" ∧
    ("Connection failed: 401 Unauthorized" : String)
      ≠ "Connection failed: 401 Nope" ∧
    ("Connection failed: 401 Unauthorized" : String)
      ≠ "Security check failed. Please try again." := by
  refine ⟨by decide, by decide, by decide, by decide⟩

/-- C1 (amended): on every 401/403 response, each token-gated variant
clears the held token, sets that variant's fixed security message, and its
whole outcome is independent of the response body, which is therefore
never read or parsed; the ungated variant instead treats 401/403 like any
other non-success status — its error is the generic connection-failure
message embedding the numeric status code and status text — and its
outcome is likewise independent of the response body. -/
theorem C1_status_401_403 (s : GatedState) (u : UngatedState) (t : String)
    (status : Nat) (st : String) (b b2 : BodyOutcome)
    (hq : jsTrim s.query ≠ "") (ht : s.token = some t)
    (hu : jsTrim u.query ≠ "")
    (hs : status = 401 ∨ status = 403) :
    ((handleSearchGated s (.response status st b)).1.token = none ∧
     (handleSearchGated s (.response status st b)).1.error
        = "Security check failed. Please try again." ∧
     handleSearchGated s (.response status st b)
        = handleSearchGated s (.response status st b2)) ∧
    ((handleSearchGatedV2 s (.response status st b)).1.token = none ∧
     (handleSearchGatedV2 s (.response status st b)).1.error
        = "Security check failed or token expired. Please retry." ∧
     handleSearchGatedV2 s (.response status st b)
        = handleSearchGatedV2 s (.response status st b2)) ∧
    ((handleSearchUngated u (.response status st b)).1.error
        = "Connection failed: " ++ toString status ++ " " ++ st ∧
     handleSearchUngated u (.response status st b)
        = handleSearchUngated u (.response status st b2)) := by
  have hnok : resOk status = false := by
    rcases hs with h | h <;> subst h <;> decide
  rcases hs with h | h <;> subst h <;>
    simp [handleSearchGated, handleSearchGatedV2, handleSearchUngated,
      hq, ht, hu, catchMessage, hnok]

/-- C1 witness: the 401 treatment of each variant on a concrete response:
the gated token is cleared and the ungated error embeds the status. -/
theorem C1_status_401_403_witness :
    jsTrim sampleGated.query ≠ "" ∧ sampleGated.token = some "tok" ∧
    jsTrim sampleUngated.query ≠ "" ∧
    ((401 : Nat) = 401 ∨ (401 : Nat) = 403) ∧
    (handleSearchGated sampleGated
        (.response 401 "Unauthorized" (.text []))).1.token = none ∧
    (handleSearchUngated sampleUngated
        (.response 401 "Unauthorized" (.text []))).1.error
      = "Connection failed: " ++ toString 401 ++ " " ++ "Unauthorized" :=
  ⟨by decide, rfl, by decide, Or.inl rfl,
    (C1_status_401_403 sampleGated sampleUngated "tok" 401 "Unauthorized"
      (.text []) (.textError none) (by decide) rfl (by decide)
      (Or.inl rfl)).1.1,
    (C1_status_401_403 sampleGated sampleUngated "tok" 401 "Unauthorized"
      (.text []) (.textError none) (by decide) rfl (by decide)
      (Or.inl rfl)).2.2.1⟩

/-- C2: on every ok-status response whose body yields a list of `employee`
elements, each variant sets `results` to the per-element mapping of that
list in document order (hence its length is the element count and zero
elements give the empty list), leaves `error` empty, and each field of a
record is the child's text where present and non-empty and the field's
fixed placeholder otherwise. -/
theorem C2_success_parse (s : GatedState) (u : UngatedState) (t : String)
    (status : Nat) (st : String) (employees : List EmployeeElem)
    (hq : jsTrim s.query ≠ "") (ht : s.token = some t)
    (hu : jsTrim u.query ≠ "") (hok : resOk status = true) :
    ((handleSearchGated s (.response status st (.text employees))).1.results
        = employees.map parseEmployee ∧
     (handleSearchGated s (.response status st (.text employees))).1.results.length
        = employees.length ∧
     (handleSearchGated s (.response status st (.text employees))).1.error = "") ∧
    ((handleSearchGatedV2 s (.response status st (.text employees))).1.results
        = employees.map parseEmployee ∧
     (handleSearchGatedV2 s (.response status st (.text employees))).1.results.length
        = employees.length ∧
     (handleSearchGatedV2 s (.response status st (.text employees))).1.error = "") ∧
    ((handleSearchUngated u (.response status st (.text employees))).1.results
        = employees.map parseEmployee ∧
     (handleSearchUngated u (.response status st (.text employees))).1.results.length
        = employees.length ∧
     (handleSearchUngated u (.response status st (.text employees))).1.error = "") ∧
    (∀ emp : EmployeeElem, parseEmployee emp
        = { name := textOr emp.firstName "Unknown"
            roll := textOr emp.rollno "N/A"
            hometown := textOr emp.Home_town "N/A" }) ∧
    (∀ d : String, textOr none d = d ∧ textOr (some "") d = d) ∧
    (∀ x d : String, x ≠ "" → textOr (some x) d = x) := by
  have hok' := hok
  simp only [resOk, Bool.and_eq_true, decide_eq_true_eq] at hok'
  have hcond : ¬(status = 401 ∨ status = 403) := by omega
  have hcond2 : ¬(status = 403 ∨ status = 401) := by omega
  refine ⟨?_, ?_, ?_, fun emp => rfl, fun d => ⟨rfl, rfl⟩, fun x d hx => ?_⟩
  · simp [handleSearchGated, hq, ht, hcond, hok, parseEmployees]
  · simp [handleSearchGatedV2, hq, ht, hcond2, hok, parseEmployees]
  · simp [handleSearchUngated, hu, hok, parseEmployees]
  · simp [textOr, hx]

/-- C2 witness: a concrete two-element body, one element with all children
present and one with a missing and an empty child. -/
theorem C2_success_parse_witness :
    jsTrim sampleGated.query ≠ "" ∧ sampleGated.token = some "tok" ∧
    jsTrim sampleUngated.query ≠ "" ∧ resOk 200 = true ∧
    (handleSearchGated sampleGated (.response 200 "OK"
        (.text [{ firstName := some "ravi", rollno := some "210123"
                  Home_town := some "delhi" },
                { firstName := none, rollno := some ""
                  Home_town := some "x" }]))).1.results
      = [{ firstName := some "ravi", rollno := some "210123"
           Home_town := some "delhi" },
         { firstName := none, rollno := some ""
           Home_town := some "x" }].map parseEmployee :=
  ⟨by decide, rfl, by decide, by decide,
    (C2_success_parse sampleGated sampleUngated "tok" 200 "OK"
      [{ firstName := some "ravi", rollno := some "210123"
         Home_town := some "delhi" },
       { firstName := none, rollno := some "", Home_town := some "x" }]
      (by decide) rfl (by decide) (by decide)).1.1⟩

/-- C8: whenever a request is started and the fetch rejects, or the body
read of an ok response rejects, each variant sets `error` to the thrown
`Error`'s message, and to the fixed generic message exactly when the
thrown value carries no message. -/
theorem C8_exception_error (s : GatedState) (u : UngatedState) (t : String)
    (m : Option String) (status : Nat) (st : String)
    (hq : jsTrim s.query ≠ "") (ht : s.token = some t)
    (hu : jsTrim u.query ≠ "") (hok : resOk status = true) :
    (handleSearchGated s (.fetchError m)).1.error = catchMessage m ∧
    (handleSearchGatedV2 s (.fetchError m)).1.error = catchMessage m ∧
    (handleSearchUngated u (.fetchError m)).1.error = catchMessage m ∧
    (handleSearchGated s (.response status st (.textError m))).1.error
      = catchMessage m ∧
    (handleSearchGatedV2 s (.response status st (.textError m))).1.error
      = catchMessage m ∧
    (handleSearchUngated u (.response status st (.textError m))).1.error
      = catchMessage m ∧
    (∀ x : String, catchMessage (some x) = x) ∧
    catchMessage none = "Something went wrong." := by
  have hok' := hok
  simp only [resOk, Bool.and_eq_true, decide_eq_true_eq] at hok'
  have hcond : ¬(status = 401 ∨ status = 403) := by omega
  have hcond2 : ¬(status = 403 ∨ status = 401) := by omega
  refine ⟨?_, ?_, ?_, ?_, ?_, ?_, fun x => rfl, rfl⟩
  · simp only [handleSearchGated]; rw [if_neg hq, ht]
  · simp only [handleSearchGatedV2]; rw [if_neg hq, ht]
  · simp only [handleSearchUngated]; rw [if_neg hu]
  · simp [handleSearchGated, hq, ht, hcond, hok]
  · simp [handleSearchGatedV2, hq, ht, hcond2, hok]
  · simp [handleSearchUngated, hu, hok]

/-- C8 witness: a fetch rejection with a message on a concrete state. -/
theorem C8_exception_error_witness :
    jsTrim sampleGated.query ≠ "" ∧ sampleGated.token = some "tok" ∧
    jsTrim sampleUngated.query ≠ "" ∧ resOk 200 = true ∧
    (handleSearchGated sampleGated (.fetchError (some "boom"))).1.error
      = catchMessage (some "boom") :=
  ⟨by decide, rfl, by decide, by decide,
    (C8_exception_error sampleGated sampleUngated "tok" (some "boom") 200 "OK"
      (by decide) rfl (by decide) (by decide)).1⟩

/-- C5 counterexample: the second token-gated variant answers a 500
response with a fixed message that does not contain the status code. -/
theorem C5_counterexample :
    (handleSearchGatedV2 sampleGated
        (.response 500 "Internal Server Error" (.text []))).1.error
      = "Failed to connect to search service" ∧
    ¬ ∃ p q : String,
        ("Failed to connect to search service" : String) = p ++ "500" ++ q := by
  refine ⟨by decide, ?_⟩
  rintro ⟨p, q, h⟩
  have h5 : ('5' : Char) ∈ ("Failed to connect to search service" : String).data := by
    rw [h]; simp [String.data_append]
  revert h5; decide

/-- C5 (amended): on a non-ok status other than 401 and 403, the first
token-gated variant and the ungated variant fail with a message embedding
the numeric status code, while the second token-gated variant fails with a
fixed message that omits it. -/
theorem C5_nonok_status (s : GatedState) (u : UngatedState) (t : String)
    (status : Nat) (st : String) (b : BodyOutcome)
    (hq : jsTrim s.query ≠ "") (ht : s.token = some t)
    (hu : jsTrim u.query ≠ "")
    (hnok : resOk status = false) (h401 : status ≠ 401) (h403 : status ≠ 403) :
    (∃ p q : String,
      (handleSearchGated s (.response status st b)).1.error
        = p ++ toString status ++ q) ∧
    (∃ p q : String,
      (handleSearchUngated u (.response status st b)).1.error
        = p ++ toString status ++ q) ∧
    (handleSearchGatedV2 s (.response status st b)).1.error
      = "Failed to connect to search service" := by
  have hcond : ¬(status = 401 ∨ status = 403) := by tauto
  have hcond2 : ¬(status = 403 ∨ status = 401) := by tauto
  refine ⟨⟨"Connection failed: ", " " ++ st, ?_⟩,
          ⟨"Connection failed: ", " " ++ st, ?_⟩, ?_⟩
  · simp [handleSearchGated, hq, ht, hcond, hnok, catchMessage,
      String.append_assoc]
  · simp [handleSearchUngated, hu, hnok, catchMessage, String.append_assoc]
  · simp [handleSearchGatedV2, hq, ht, hcond2, hnok, catchMessage]

/-- C5 witness: a concrete 500 response through the first gated variant. -/
theorem C5_nonok_status_witness :
    jsTrim sampleGated.query ≠ "" ∧ sampleGated.token = some "tok" ∧
    jsTrim sampleUngated.query ≠ "" ∧ resOk 500 = false ∧
    (500 : Nat) ≠ 401 ∧ (500 : Nat) ≠ 403 ∧
    ∃ p q : String,
      (handleSearchGated sampleGated
          (.response 500 "Internal Server Error" (.text []))).1.error
        = p ++ toString 500 ++ q :=
  ⟨by decide, rfl, by decide, by decide, by decide, by decide,
    (C5_nonok_status sampleGated sampleUngated "tok" 500
      "Internal Server Error" (.text []) (by decide) rfl (by decide)
      (by decide) (by decide) (by decide)).1⟩

/-- C9 counterexample: a submission while no token is held leaves earlier
results on screen and sets a non-empty error, so a settled submission can
end with `error` and `results` both non-trivial. -/
theorem C9_counterexample :
    (handleSearchGated staleResultsState
        (.response 200 "OK" (.text []))).1.error
      = "Please verify you are human first." ∧
    (handleSearchGated staleResultsState
        (.response 200 "OK" (.text []))).1.results
      = [{ name := "ravi", roll := "210123", hometown := "delhi" }] ∧
    ("Please verify you are human first." : String) ≠ "" ∧
    ([{ name := "ravi", roll := "210123", hometown := "delhi" }]
      : List Student) ≠ [] := by
  refine ⟨by decide, by decide, by decide, by decide⟩

/-- C9 (amended): for every submission that starts a request (non-blank
query, gate satisfied), `error` and `results` are never both non-trivial
after the handler settles: every environment outcome leaves `error` empty
or `results` empty, in each variant. -/
theorem C9_error_results_exclusive (s : GatedState) (u : UngatedState)
    (t : String) (env : FetchOutcome)
    (hq : jsTrim s.query ≠ "") (ht : s.token = some t)
    (hu : jsTrim u.query ≠ "") :
    ((handleSearchGated s env).1.error = ""
      ∨ (handleSearchGated s env).1.results = []) ∧
    ((handleSearchGatedV2 s env).1.error = ""
      ∨ (handleSearchGatedV2 s env).1.results = []) ∧
    ((handleSearchUngated u env).1.error = ""
      ∨ (handleSearchUngated u env).1.results = []) := by
  obtain ⟨status, st, body⟩ | m := env
  · by_cases h1 : status = 401 ∨ status = 403
    · have h2 : status = 403 ∨ status = 401 := h1.symm
      have hnok : resOk status = false := by
        rcases h1 with h | h <;> subst h <;> decide
      refine ⟨Or.inr ?_, Or.inr ?_, Or.inr ?_⟩
      · simp [handleSearchGated, hq, ht, h1]
      · simp [handleSearchGatedV2, hq, ht, h2]
      · simp [handleSearchUngated, hu, hnok]
    · have h2 : ¬(status = 403 ∨ status = 401) := fun h => h1 h.symm
      by_cases h3 : resOk status = true
      · cases body with
        | text employees =>
          refine ⟨Or.inl ?_, Or.inl ?_, Or.inl ?_⟩
          · simp [handleSearchGated, hq, ht, h1, h3]
          · simp [handleSearchGatedV2, hq, ht, h2, h3]
          · simp [handleSearchUngated, hu, h3]
        | textError msg =>
          refine ⟨Or.inr ?_, Or.inr ?_, Or.inr ?_⟩
          · simp [handleSearchGated, hq, ht, h1, h3]
          · simp [handleSearchGatedV2, hq, ht, h2, h3]
          · simp [handleSearchUngated, hu, h3]
      · have h3' : resOk status = false := by simpa using h3
        refine ⟨Or.inr ?_, Or.inr ?_, Or.inr ?_⟩
        · simp [handleSearchGated, hq, ht, h1, h3']
        · simp [handleSearchGatedV2, hq, ht, h2, h3']
        · simp [handleSearchUngated, hu, h3']
  · refine ⟨Or.inr ?_, Or.inr ?_, Or.inr ?_⟩
    · simp only [handleSearchGated]; rw [if_neg hq, ht]
    · simp only [handleSearchGatedV2]; rw [if_neg hq, ht]
    · simp only [handleSearchUngated]; rw [if_neg hu]

/-- C9 witness: a concrete started submission whose fetch rejects ends
with empty results. -/
theorem C9_error_results_exclusive_witness :
    jsTrim sampleGated.query ≠ "" ∧ sampleGated.token = some "tok" ∧
    jsTrim sampleUngated.query ≠ "" ∧
    ((handleSearchGated sampleGated (.fetchError (some "boom"))).1.error = ""
      ∨ (handleSearchGated sampleGated (.fetchError (some "boom"))).1.results
          = []) :=
  ⟨by decide, rfl, by decide,
    (C9_error_results_exclusive sampleGated sampleUngated "tok"
      (.fetchError (some "boom")) (by decide) rfl (by decide)).1⟩
